import Mathlib

/-!
Verification of the ClarityOS kernel's inference pipeline
(`src/clarityos/clarity_os_kernel/src/{main.rs, llm.rs}`).

The embedding models Rust `f32` values as `Option ℚ`: `some q` is a finite
real value (the source literals are small decimal fractions, represented
exactly), and `none` is NaN.  IEEE comparison with NaN is false and IEEE
arithmetic propagates NaN, which is what the `relu` claims depend on.
Output is modelled as a line-oriented sink with the two primitives of the
serial device macros: `println` (write a line terminator) and `print`
(write a token, no terminator).  The non-returning entry point and the
panic handler end in an explicit `Terminal` state.
-/

namespace ClarityOS

/-- Model of a Rust `f32` value: `some q` a finite value, `none` NaN. -/
abbrev F32 := Option ℚ

/-- The `f32` literal `0.0`. -/
def fzero : F32 := some 0

/-- IEEE addition: NaN-propagating. -/
def fadd : F32 → F32 → F32
  | some a, some b => some (a + b)
  | _, _ => none

/-- IEEE multiplication: NaN-propagating. -/
def fmul : F32 → F32 → F32
  | some a, some b => some (a * b)
  | _, _ => none

/-- IEEE `<` (the Rust `<` on `f32`): any comparison with NaN is false. -/
def flt : F32 → F32 → Bool
  | some a, some b => decide (a < b)
  | _, _ => false

/-- Rust `f32::max`: ignores a NaN argument, otherwise the larger value. -/
def fmax : F32 → F32 → F32
  | none, b => b
  | some a, none => some a
  | some a, some b => some (max a b)

/-- Truncation of a rational toward zero: floor for non-negative values,
ceiling for negative ones. -/
def truncQ (q : ℚ) : Int := if 0 ≤ q then ⌊q⌋ else ⌈q⌉

/-- The Rust cast `x as i32` on an `f32`: NaN maps to 0, finite values are
truncated toward zero and saturated to the `i32` range. -/
def f32ToI32 : F32 → Int
  | none => 0
  | some q =>
    if q ≤ -(2 ^ 31 : ℚ) then -(2 ^ 31)
    else if (2 ^ 31 - 1 : ℚ) ≤ q then 2 ^ 31 - 1
    else truncQ q

/-- `vectormatrix::Vector<f32, N>`: a fixed-length vector. -/
abbrev VecF (n : Nat) := Fin n → F32

/-- `vectormatrix::Matrix<f32, R, C>`, stored row-major (`Matrix::new_rows`). -/
abbrev MatF (r c : Nat) := Fin r → Fin c → F32

/-- Left-to-right accumulation `Σ_k a[k]·b[k]` starting from `0.0`,
the crate's natural summation order for one entry of a matrix product. -/
def dotF {n : Nat} (a b : Fin n → F32) : F32 :=
  (List.finRange n).foldl (fun acc k => fadd acc (fmul (a k) (b k))) fzero

/-- Matrix product of the `vectormatrix` crate: entry `(i, j)` accumulates
row `i` of `a` against column `j` of `b`. -/
def matMul {r k c : Nat} (a : MatF r k) (b : MatF k c) : MatF r c :=
  fun i j => dotF (fun t => a i t) (fun t => b t j)

/-- A vector viewed as a one-column matrix, as the crate does for
`Matrix * Vector`. -/
def vecToCol {n : Nat} (v : VecF n) : MatF n 1 :=
  fun i _ => v i

/-- `columns()[j]` of a matrix: its `j`-th column as a vector. -/
def matCol {r c : Nat} (m : MatF r c) (j : Fin c) : VecF r :=
  fun i => m i j

/-- Element-wise vector addition (`Vector + Vector` of the crate). -/
def vecAdd {n : Nat} (a b : VecF n) : VecF n :=
  fun i => fadd (a i) (b i)

/-- `llm::DenseLayer<IN, OUT>`: weight matrix and bias vector. -/
structure DenseLayer (IN OUT : Nat) where
  weights : MatF OUT IN
  biases : VecF OUT

/-- `DenseLayer::new`: rows of weights and a bias array. -/
def DenseLayer.new {IN OUT : Nat} (weights_rows : Fin OUT → VecF IN)
    (biases : VecF OUT) : DenseLayer IN OUT :=
  ⟨fun r c => weights_rows r c, biases⟩

/-- `DenseLayer::forward`: multiply the weight matrix by the input as a
column vector, take column 0 of the result, add the biases. -/
def DenseLayer.forward {IN OUT : Nat} (l : DenseLayer IN OUT)
    (inputs : VecF IN) : VecF OUT :=
  let output_matrix := matMul l.weights (vecToCol inputs)
  let output_vector := matCol output_matrix 0
  vecAdd output_vector l.biases

/-- One iteration of the `relu` loop body at index `i`:
`if vector[i] < 0.0 { vector[i] = 0.0; }`. -/
def reluStep {D : Nat} (w : VecF D) (i : Fin D) : VecF D :=
  if flt (w i) fzero then Function.update w i fzero else w

/-- `llm::relu`: the in-place loop over `0..D`, modelled by state passing. -/
def relu {D : Nat} (v : VecF D) : VecF D :=
  (List.finRange D).foldl reluStep v

/-- The Output Sink (serial device): completed lines plus the token buffer
of the line currently being written. -/
structure Sink where
  lines : List String
  curLine : String
  deriving DecidableEq

/-- The sink before any output. -/
def Sink.empty : Sink := ⟨[], ""⟩

/-- `serial_print!`: write a token, no line terminator. -/
def Sink.print (s : Sink) (t : String) : Sink :=
  ⟨s.lines, s.curLine ++ t⟩

/-- `serial_println!`: write a token and a line terminator, completing the
current line. -/
def Sink.println (s : Sink) (t : String) : Sink :=
  ⟨s.lines ++ [s.curLine ++ t], ""⟩

/-- `llm::print_vector`: a label line `"<name>:"`, then the token `"[ "`,
one token `"<v[i] as i32> "` per element, and a terminating `"]"` line. -/
def printVector {D : Nat} (v : VecF D) (name : String) (s : Sink) : Sink :=
  let s1 := s.println (name ++ ":")
  let s2 := s1.print "[ "
  let s3 := (List.finRange D).foldl
    (fun acc i => acc.print (toString (f32ToI32 (v i)) ++ " ")) s2
  s3.println "]"

/-- How a diverging (`-> !`) function left the normal control flow:
`halted` is the permanent idle `loop {}`, `returned` would be giving
control back to a caller (never produced by this code). -/
inductive Terminal where
  | halted
  | returned
  deriving DecidableEq

/-- One scheduling step of a terminal state: `halted` stays `halted` and
emits nothing — the permanent idle state does no further work. -/
def Terminal.step : Terminal → Terminal × Option String
  | .halted => (.halted, none)
  | .returned => (.returned, none)

/-- Outcome of a fallible kernel operation: a normal return value, or a
`panic` with its message. -/
inductive KResult (α : Type) where
  | ok (val : α)
  | panicked (msg : String)
  deriving DecidableEq

/-- `core::alloc::Layout`: requested size and alignment. -/
structure LayoutM where
  size : Nat
  align : Nat
  deriving DecidableEq

/-- `DummyAllocator::alloc`: unconditionally `panic`s with "no allocator";
a returned value would be a raw pointer (modelled as an address). -/
def DummyAllocator.alloc (_layout : LayoutM) : KResult Nat :=
  .panicked "no allocator"

/-- `DummyAllocator::dealloc`: unconditionally `panic`s with "no allocator". -/
def DummyAllocator.dealloc (_ptr : Nat) (_layout : LayoutM) : KResult Unit :=
  .panicked "no allocator"

/-- The `#[panic_handler]` `panic` function: print one `"[PANIC] <info>"`
line to the sink, then `loop {}`. -/
def panicHandler (info : String) (s : Sink) : Sink × Terminal :=
  (s.println ("[PANIC] " ++ info), .halted)

/-- `layer1`: DenseLayer::new with the 3×2 weight rows and 3 biases of
`kernel_main` (decimal literals represented exactly). -/
def layer1 : DenseLayer 2 3 :=
  DenseLayer.new
    ![![some (1/10), some (2/10)],
      ![some (3/10), some (4/10)],
      ![some (5/10), some (6/10)]]
    ![some (1/10), some (2/10), some (3/10)]

/-- `layer2`: DenseLayer::new with the 1×3 weight row and 1 bias. -/
def layer2 : DenseLayer 3 1 :=
  DenseLayer.new
    ![![some (7/10), some (8/10), some (9/10)]]
    ![some (4/10)]

/-- The sample input vector `[1.0, 2.0]`. -/
def inputs : VecF 2 := ![some 1, some 2]

/-- `kernel_main`: the Inference Driver, statement by statement.  Returns
the final sink and the terminal state (`loop {}`). -/
def kernelMain (s0 : Sink) : Sink × Terminal :=
  let s1 := s0.println "Hello from ClarityOS Kernel!"
  let s2 := printVector inputs "Input" s1
  let output1 := layer1.forward inputs
  let s3 := printVector output1 "Layer 1 Output (before ReLU)" s2
  let output1r := relu output1
  let s4 := printVector output1r "Layer 1 Output (after ReLU)" s3
  let final_output := layer2.forward output1r
  let s5 := printVector final_output "Final Output" s4
  let s6 := s5.println "LLM test complete."
  (s6, .halted)

/-! ### Helper lemmas -/

lemma finRange_one : List.finRange 1 = [0] := rfl

lemma finRange_two : List.finRange 2 = [0, 1] := rfl

lemma finRange_three : List.finRange 3 = [0, 1, 2] := rfl

lemma flt_fzero_fzero : flt fzero fzero = false := by
  simp [flt, fzero]

lemma reluStep_apply_self {D : Nat} (w : VecF D) (j : Fin D) :
    reluStep w j j = if flt (w j) fzero then fzero else w j := by
  unfold reluStep
  by_cases h : flt (w j) fzero
  · simp [h, Function.update_same]
  · simp [h]

lemma reluStep_apply_ne {D : Nat} (w : VecF D) (j i : Fin D) (h : i ≠ j) :
    reluStep w j i = w i := by
  unfold reluStep
  split
  · exact Function.update_noteq h _ _
  · rfl

lemma foldl_reluStep_apply {D : Nat} (l : List (Fin D)) (v : VecF D) (i : Fin D) :
    (l.foldl reluStep v) i =
      if i ∈ l then (if flt (v i) fzero then fzero else v i) else v i := by
  induction l generalizing v with
  | nil => simp
  | cons j t ih =>
    simp only [List.foldl_cons, List.mem_cons]
    rcases eq_or_ne i j with rfl | hne
    · by_cases hm : i ∈ t
      · rw [ih, if_pos hm, if_pos (Or.inl rfl), reluStep_apply_self]
        by_cases hf : flt (v i) fzero
        · simp [hf, flt_fzero_fzero]
        · simp [hf]
      · rw [ih, if_neg hm, if_pos (Or.inl rfl), reluStep_apply_self]
    · rw [ih, reluStep_apply_ne v j i hne]
      by_cases hm : i ∈ t
      · simp [hm]
      · simp [hm, hne]

/-- Pointwise behavior of the `relu` loop: each element depends only on its
own old value. -/
lemma relu_apply {D : Nat} (v : VecF D) (i : Fin D) :
    relu v i = if flt (v i) fzero then fzero else v i := by
  rw [relu, foldl_reluStep_apply, if_pos (List.mem_finRange i)]

lemma foldl_fadd_some {n : Nat} (A B : Fin n → ℚ) (l : List (Fin n)) (c : ℚ) :
    l.foldl (fun acc k => fadd acc (fmul (some (A k)) (some (B k)))) (some c)
      = some (c + (l.map fun k => A k * B k).sum) := by
  induction l generalizing c with
  | nil => simp
  | cons j t ih =>
    rw [List.foldl_cons, show fadd (some c) (fmul (some (A j)) (some (B j)))
      = some (c + A j * B j) from rfl, ih]
    simp [add_assoc]

/-- The crate's left-to-right accumulation agrees with the mathematical sum
when no entry is NaN. -/
lemma dotF_some {n : Nat} (A B : Fin n → ℚ) :
    dotF (fun k => some (A k)) (fun k => some (B k)) = some (∑ k, A k * B k) := by
  rw [dotF, Fin.sum_univ_def]
  simpa [fzero] using foldl_fadd_some A B (List.finRange n) 0

/-- `forward` unfolds to the accumulated dot product of the `r`-th weight
row with the input, plus the `r`-th bias. -/
lemma forward_apply {IN OUT : Nat} (l : DenseLayer IN OUT) (v : VecF IN)
    (r : Fin OUT) :
    l.forward v r = fadd (dotF (fun c => l.weights r c) (fun c => v c))
      (l.biases r) := rfl

lemma strFoldl_append (l : List String) (x y : String) :
    l.foldl (fun r s => r ++ s) (x ++ y) = x ++ l.foldl (fun r s => r ++ s) y := by
  induction l generalizing y with
  | nil => simp
  | cons a t ih => simp only [List.foldl_cons, String.append_assoc, ih]

lemma strJoin_cons (a : String) (l : List String) :
    String.join (a :: l) = a ++ String.join l := by
  have h := strFoldl_append l a ""
  rw [String.append_empty] at h
  simpa [String.join] using h

lemma foldl_print {α : Type} (g : α → String) (l : List α) (s : Sink) :
    l.foldl (fun acc i => acc.print (g i)) s
      = ⟨s.lines, s.curLine ++ String.join (l.map g)⟩ := by
  induction l generalizing s with
  | nil => simp [show String.join [] = "" from rfl, String.append_empty]
  | cons a t ih =>
    rw [List.foldl_cons, ih]
    simp [Sink.print, List.map_cons, strJoin_cons, String.append_assoc]

/-- `print_vector` in closed form: two completed lines, empty token buffer. -/
lemma printVector_eq {D : Nat} (v : VecF D) (name : String) (s : Sink) :
    printVector v name s =
      ⟨s.lines ++ [s.curLine ++ (name ++ ":"),
        "[ " ++ String.join ((List.finRange D).map
          fun i => toString (f32ToI32 (v i)) ++ " ") ++ "]"], ""⟩ := by
  unfold printVector
  simp only [foldl_print]
  simp [Sink.println, Sink.print, String.append_assoc, String.empty_append]

/-- Evaluation of the `as i32` cast on an in-range non-negative value. -/
lemma f32ToI32_eval (q : ℚ) (z : ℤ) (h0 : 0 ≤ q) (hz : (z : ℚ) ≤ q)
    (hz1 : q < (z : ℚ) + 1) (hs : q < 2 ^ 31 - 1) :
    f32ToI32 (some q) = z := by
  simp only [f32ToI32, truncQ]
  rw [if_neg (by linarith), if_neg (by linarith), if_pos h0]
  exact Int.floor_eq_iff.mpr ⟨hz, by linarith⟩

/-! ### Concrete evaluation of the driver's data -/

lemma out1_eq : layer1.forward inputs = ![some (3/5), some (13/10), some 2] := by
  funext r
  fin_cases r <;>
    simp [DenseLayer.forward, matMul, matCol, vecToCol, vecAdd, dotF, layer1,
      inputs, DenseLayer.new, fadd, fmul, fzero, finRange_two] <;>
    norm_num

lemma relu_out1 :
    relu (![some (3/5), some (13/10), some 2] : VecF 3)
      = ![some (3/5), some (13/10), some 2] := by
  funext i
  rw [relu_apply]
  fin_cases i <;> norm_num [flt, fzero]

lemma final_eq :
    layer2.forward (![some (3/5), some (13/10), some 2] : VecF 3)
      = ![some (183/50)] := by
  funext r
  fin_cases r
  simp [DenseLayer.forward, matMul, matCol, vecToCol, vecAdd, dotF, layer2,
    DenseLayer.new, fadd, fmul, fzero, finRange_three]
  norm_num

lemma f32_one : f32ToI32 (some 1) = 1 :=
  f32ToI32_eval 1 1 (by norm_num) (by norm_num) (by norm_num) (by norm_num)

lemma f32_two : f32ToI32 (some 2) = 2 :=
  f32ToI32_eval 2 2 (by norm_num) (by norm_num) (by norm_num) (by norm_num)

lemma f32_p6 : f32ToI32 (some (3/5)) = 0 :=
  f32ToI32_eval (3/5) 0 (by norm_num) (by norm_num) (by norm_num) (by norm_num)

lemma f32_13_10 : f32ToI32 (some (13/10)) = 1 :=
  f32ToI32_eval (13/10) 1 (by norm_num) (by norm_num) (by norm_num) (by norm_num)

lemma f32_183_50 : f32ToI32 (some (183/50)) = 3 :=
  f32ToI32_eval (183/50) 3 (by norm_num) (by norm_num) (by norm_num) (by norm_num)

/-- The whole run of `kernel_main` from an empty sink, in closed form. -/
lemma kernelMain_empty :
    kernelMain Sink.empty =
      (⟨["Hello from ClarityOS Kernel!", "Input:", "[ 1 2 ]",
         "Layer 1 Output (before ReLU):", "[ 0 1 2 ]",
         "Layer 1 Output (after ReLU):", "[ 0 1 2 ]",
         "Final Output:", "[ 3 ]", "LLM test complete."], ""⟩,
       Terminal.halted) := by
  simp only [kernelMain]
  rw [out1_eq, relu_out1, final_eq]
  simp only [printVector_eq, Sink.println, Sink.empty, finRange_one,
    finRange_two, finRange_three, List.map_cons, List.map_nil]
  norm_num [inputs, f32_one, f32_two, f32_p6, f32_13_10, f32_183_50]
  decide

/-! ### Claims -/

/-- C1: for every instantiation of IN and OUT and every input vector of
length IN with real (non-NaN) entries, `DenseLayer.forward(input)` returns
the vector whose `r`-th element is the sum over `c` of `weights[r][c] *
input[c]`, plus `bias[r]` — the matrix–vector product of the weights with
the input, plus the bias, element-wise. -/
theorem C1_dense_forward {IN OUT : Nat} (l : DenseLayer IN OUT) (v : VecF IN)
    (W : Fin OUT → Fin IN → ℚ) (V : Fin IN → ℚ) (B : Fin OUT → ℚ)
    (hW : ∀ r c, l.weights r c = some (W r c))
    (hV : ∀ c, v c = some (V c))
    (hB : ∀ r, l.biases r = some (B r)) (r : Fin OUT) :
    l.forward v r = some ((∑ c, W r c * V c) + B r) := by
  rw [forward_apply, funext (hW r) , funext hV, dotF_some, hB]
  rfl

/-- Witness for C1 at the driver's `layer1`, its input `[1, 2]` and row 0. -/
theorem C1_dense_forward_witness :
    (∀ r c, layer1.weights r c
      = some ((![![1/10, 2/10], ![3/10, 4/10], ![5/10, 6/10]] :
          Fin 3 → Fin 2 → ℚ) r c)) ∧
    (∀ c, inputs c = some ((![1, 2] : Fin 2 → ℚ) c)) ∧
    (∀ r, layer1.biases r = some ((![1/10, 2/10, 3/10] : Fin 3 → ℚ) r)) ∧
    layer1.forward inputs 0
      = some ((∑ c, (![![1/10, 2/10], ![3/10, 4/10], ![5/10, 6/10]] :
          Fin 3 → Fin 2 → ℚ) 0 c * (![1, 2] : Fin 2 → ℚ) c)
        + (![1/10, 2/10, 3/10] : Fin 3 → ℚ) 0) := by
  refine ⟨?_, ?_, ?_, ?_⟩
  · intro r c; fin_cases r <;> fin_cases c <;> rfl
  · intro c; fin_cases c <;> rfl
  · intro r; fin_cases r <;> rfl
  · exact C1_dense_forward layer1 inputs _ _ _
      (by intro r c; fin_cases r <;> fin_cases c <;> rfl)
      (by intro c; fin_cases c <;> rfl)
      (by intro r; fin_cases r <;> rfl) 0

/-- C2: for every fixed length D, every vector with a real (non-NaN) value
`q` at index `i`, after `relu` the element at `i` equals `max(q, 0)`: it is
0 if `q` was strictly negative and unchanged otherwise; the transform is a
total function (no failure path). -/
theorem C2_relu_pointwise {D : Nat} (v : VecF D) (i : Fin D) (q : ℚ)
    (h : v i = some q) :
    relu v i = some (max q 0) ∧
    (q < 0 → relu v i = some 0) ∧
    (¬q < 0 → relu v i = v i) := by
  by_cases hq : q < 0
  · refine ⟨?_, fun _ => ?_, fun hc => absurd hq hc⟩ <;>
      rw [relu_apply, h] <;>
      simp [flt, fzero, hq, max_eq_right hq.le]
  · refine ⟨?_, fun hc => absurd hc hq, fun _ => ?_⟩ <;>
      rw [relu_apply, h] <;>
      simp [flt, fzero, hq, max_eq_left (not_lt.mp hq)]

/-- Witness for C2 at the vector `[-5, 3]` and index 0. -/
theorem C2_relu_pointwise_witness :
    ((![some (-5), some 3] : VecF 2) 0 = some (-5)) ∧
    (relu (![some (-5), some 3] : VecF 2) 0 = some (max (-5) 0) ∧
     ((-5 : ℚ) < 0 → relu (![some (-5), some 3] : VecF 2) 0 = some 0) ∧
     (¬(-5 : ℚ) < 0 → relu (![some (-5), some 3] : VecF 2) 0
        = (![some (-5), some 3] : VecF 2) 0)) :=
  ⟨rfl, C2_relu_pointwise (![some (-5), some 3] : VecF 2) 0 (-5) rfl⟩

/-- C3 counterexample: the labeled inference emissions plus the completion
marker are NOT the full observable behavior of a run — the trace does not
equal that list (a greeting line precedes it). -/
theorem C3_counterexample :
    (kernelMain Sink.empty).1.lines ≠
      ["Input:", "[ 1 2 ]", "Layer 1 Output (before ReLU):", "[ 0 1 2 ]",
       "Layer 1 Output (after ReLU):", "[ 0 1 2 ]", "Final Output:",
       "[ 3 ]", "LLM test complete."] := by
  rw [kernelMain_empty]
  decide

/-- C3 (amended): executed once, the Inference Driver emits, in order, a
greeting line, the input labeled "Input", the layer-1 result before ReLU,
the same vector after in-place ReLU, the layer-2 result labeled "Final
Output", and a completion marker; these are the full observable behavior,
and the process then stays in the permanent idle state forever, emitting
nothing and never returning control to a caller. -/
theorem C3_kernel_trace :
    (kernelMain Sink.empty).1.lines =
      ["Hello from ClarityOS Kernel!", "Input:", "[ 1 2 ]",
       "Layer 1 Output (before ReLU):", "[ 0 1 2 ]",
       "Layer 1 Output (after ReLU):", "[ 0 1 2 ]",
       "Final Output:", "[ 3 ]", "LLM test complete."] ∧
    (kernelMain Sink.empty).1.curLine = "" ∧
    (kernelMain Sink.empty).2 = Terminal.halted ∧
    (kernelMain Sink.empty).2 ≠ Terminal.returned ∧
    (∀ n : Nat,
      (fun t => (Terminal.step t).1)^[n] (kernelMain Sink.empty).2
        = Terminal.halted) ∧
    (Terminal.step (kernelMain Sink.empty).2).2 = none := by
  rw [kernelMain_empty]
  refine ⟨rfl, rfl, rfl, by decide, ?_, rfl⟩
  intro n
  induction n with
  | zero => rfl
  | succ m ih => rw [Function.iterate_succ_apply', ih]; rfl

/-- C4: with the literal weights and biases of the driver and input
`[1, 2]`, the layer-1 pre-activation is `[0.6, 1.3, 2.0]`, ReLU leaves it
unchanged, the final output is `3.66`, and it is displayed truncated
as `3`. -/
theorem C4_end_to_end :
    layer1.forward inputs = ![some (6/10), some (13/10), some (20/10)] ∧
    relu (layer1.forward inputs) = layer1.forward inputs ∧
    layer2.forward (relu (layer1.forward inputs)) = ![some (366/100)] ∧
    f32ToI32 (some (366/100)) = 3 := by
  refine ⟨?_, ?_, ?_, ?_⟩
  · rw [out1_eq]; funext r; fin_cases r <;> norm_num
  · rw [out1_eq, relu_out1]
  · rw [out1_eq, relu_out1, final_eq]; funext r; fin_cases r; norm_num
  · exact f32ToI32_eval (366/100) 3 (by norm_num) (by norm_num) (by norm_num)
      (by norm_num)

/-- C5: every call to the Allocation Guard's acquire (`alloc`) or release
(`dealloc`) panics with the diagnostic "no allocator" and never returns a
value to the caller; the panic leads to the permanent halted state. -/
theorem C5_allocation_guard :
    ∀ (layout : LayoutM) (p : Nat) (s : Sink),
      DummyAllocator.alloc layout = .panicked "no allocator" ∧
      DummyAllocator.dealloc p layout = .panicked "no allocator" ∧
      (∀ q : Nat, DummyAllocator.alloc layout ≠ .ok q) ∧
      (∀ u : Unit, DummyAllocator.dealloc p layout ≠ .ok u) ∧
      (panicHandler "no allocator" s).2 = Terminal.halted ∧
      Terminal.step Terminal.halted = (Terminal.halted, none) := by
  intro layout p s
  exact ⟨rfl, rfl, fun q => by simp [DummyAllocator.alloc],
    fun u => by simp [DummyAllocator.dealloc], rfl, rfl⟩

/-- C6: for every vector of length D and every label, `print_vector` adds
exactly two lines to a sink with an empty token buffer: the label line
`"<name>:"` and one line `"[ v0 v1 ... v(N-1) ]"` whose elements are the
values truncated toward zero to integers. -/
theorem C6_print_vector {D : Nat} (v : VecF D) (name : String) (s : Sink)
    (h : s.curLine = "") :
    (printVector v name s).lines =
      s.lines ++ [name ++ ":",
        "[ " ++ String.join ((List.finRange D).map
          fun i => toString (f32ToI32 (v i)) ++ " ") ++ "]"] ∧
    (printVector v name s).curLine = "" := by
  rw [printVector_eq, h]
  exact ⟨by rw [String.empty_append], rfl⟩

/-- Witness for C6: printing the driver's input on the empty sink. -/
theorem C6_print_vector_witness :
    Sink.empty.curLine = "" ∧
    ((printVector inputs "Input" Sink.empty).lines =
      Sink.empty.lines ++ ["Input" ++ ":",
        "[ " ++ String.join ((List.finRange 2).map
          fun i => toString (f32ToI32 (inputs i)) ++ " ") ++ "]"] ∧
     (printVector inputs "Input" Sink.empty).curLine = "") :=
  ⟨rfl, C6_print_vector inputs "Input" Sink.empty rfl⟩

/-- C7: ReLU is idempotent — for every fixed length D and every vector v,
`relu (relu v) = relu v`. -/
theorem C7_relu_idempotent {D : Nat} (v : VecF D) :
    relu (relu v) = relu v := by
  funext i
  simp only [relu_apply]
  by_cases hf : flt (v i) fzero
  · simp [hf, flt_fzero_fzero]
  · simp [hf]

/-- C8: on any panic, the handler appends the violation message to the
Output Sink exactly once (one new line) and the process reaches the
permanent halted state, which does no further work. -/
theorem C8_panic_handler :
    ∀ (info : String) (s : Sink),
      (panicHandler info s).1.lines
        = s.lines ++ [s.curLine ++ ("[PANIC] " ++ info)] ∧
      (panicHandler info s).2 = Terminal.halted ∧
      Terminal.step (panicHandler info s).2 = (Terminal.halted, none) := by
  intro info s
  exact ⟨rfl, rfl, rfl⟩

/-- C9: the first observable output of every run is the extra greeting line
"Hello from ClarityOS Kernel!", which precedes the "Input" label. -/
theorem C9_greeting_first :
    (kernelMain Sink.empty).1.lines[0]? = some "Hello from ClarityOS Kernel!" ∧
    (kernelMain Sink.empty).1.lines[1]? = some "Input:" := by
  rw [kernelMain_empty]
  exact ⟨rfl, rfl⟩

/-- C10: `relu` leaves NaN elements unchanged — the guard `v[i] < 0.0` is
false for NaN, so the element is not replaced; the identity
`relu(v)[i] = max(v[i], 0)` fails at NaN and holds whenever `v[i]` is a
real (non-NaN) value. -/
theorem C10_relu_nan {D : Nat} (v : VecF D) (i : Fin D) (h : v i = none) :
    flt (v i) fzero = false ∧
    relu v i = v i ∧
    relu v i ≠ fmax (v i) fzero ∧
    (∀ w : VecF D, ∀ q : ℚ, w i = some q → relu w i = fmax (w i) fzero) := by
  refine ⟨by rw [h]; rfl, by rw [relu_apply, h]; rfl, ?_, ?_⟩
  · rw [relu_apply, h]
    simp [flt, fmax, fzero]
  · intro w q hw
    rw [relu_apply, hw]
    by_cases hq : q < 0
    · simp [flt, fzero, fmax, hq, max_eq_right hq.le]
    · simp [flt, fzero, fmax, hq, max_eq_left (not_lt.mp hq)]

/-- Witness for C10 at the one-element vector `[NaN]`. -/
theorem C10_relu_nan_witness :
    ((![none] : VecF 1) 0 = none) ∧
    (flt ((![none] : VecF 1) 0) fzero = false ∧
     relu (![none] : VecF 1) 0 = (![none] : VecF 1) 0 ∧
     relu (![none] : VecF 1) 0 ≠ fmax ((![none] : VecF 1) 0) fzero ∧
     (∀ w : VecF 1, ∀ q : ℚ, w 0 = some q → relu w 0 = fmax (w 0) fzero)) :=
  ⟨rfl, C10_relu_nan (![none] : VecF 1) 0 rfl⟩

end ClarityOS
